import Mathlib

/-!
Verification development for the EthiQuest business-ethics simulation backend.

The two modules with algorithmic content are embedded here:
* `app/core/game/game_logic.py` (`GameLogic`), and
* `app/core/analytics/pattern_analyzer.py` (`PatternAnalyzer`),
together with the decision-validation helper of
`app/api/endpoints/scenarios.py` (`_validate_decision` / `submit_decision`).

Python floats are modelled as rationals (`ℚ`).  Operations that can raise a
Python exception (dictionary bracket lookup, scalar division by zero, a call
to an undefined method) are modelled in the `Except String` monad; the error
string names the Python exception.  Python dictionaries are modelled as
insertion-ordered association lists.
-/

attribute [local semireducible] Rat.add Rat.mul Rat.sub Rat.inv

/-- Python dict modelled as an insertion-ordered association list. -/
abbrev Dict := List (String × ℚ)

/-- `d.get(k)`: first binding of `k`, if any. -/
def dget (m : Dict) (k : String) : Option ℚ :=
  match m with
  | [] => none
  | (k', v) :: rest => if k' = k then some v else dget rest k

/-- `d.get(k, default)`. -/
def dgetD (m : Dict) (k : String) (dflt : ℚ) : ℚ :=
  (dget m k).getD dflt

/-- `d[k] = v`: replace the existing binding in place, else append. -/
def dset (m : Dict) (k : String) (v : ℚ) : Dict :=
  if (dget m k).isSome then
    m.map (fun p => if p.1 = k then (k, v) else p)
  else
    m ++ [(k, v)]

/-- Python scalar division: raises `ZeroDivisionError` on a zero divisor. -/
def pyDiv (a b : ℚ) : Except String ℚ :=
  if b = 0 then .error "ZeroDivisionError" else .ok (a / b)

/-- Python `int(x)`: truncation toward zero (the numerator `tdiv` the
positive denominator of the reduced fraction). -/
def pyTrunc (q : ℚ) : ℤ :=
  q.num.tdiv (q.den : ℤ)

/-- Iterated multiplication, `q ** n` for a natural exponent. -/
def qpow (q : ℚ) : ℕ → ℚ
  | 0 => 1
  | n + 1 => q * qpow q n

/-- Python `q ** e` for an integer exponent (negative exponents invert). -/
def qzpow (q : ℚ) (e : ℤ) : ℚ :=
  if 0 ≤ e then qpow q e.toNat else (qpow q (-e).toNat)⁻¹

namespace GameLogic

/-- Company size enum (`small`/`medium`/`large`). -/
inductive CompanySize where
  | small
  | medium
  | large
deriving DecidableEq, Repr

/-- A triggered crisis event.  The source builds plain dicts; the
`stakeholder` key is present only for stakeholder crises, modelled with
`Option`. -/
structure Event where
  type_ : String
  stakeholder : Option String
  severity : String
  description : String
deriving DecidableEq, Repr

/-- A stakeholder-memory record (`{decision_type, impact, timestamp}`);
timestamps are modelled as integer day counts. -/
structure Memory where
  decision_type : String
  impact : ℚ
  timestamp : ℤ
deriving DecidableEq, Repr

/-- Modelled from the spec: the in-memory `GameState` value of the missing
module `app/core/models/game_state.py` (only the SQLAlchemy row of
`app/models/database.py` survives in the sources).  Fields follow §3 of the
spec: resources, a stakeholder-satisfaction mapping hard-clamped to
`[0,100]`, market share, the derived sustainability rating, the event list,
level and experience, company size, and the stakeholder-memories metadata. -/
structure GameState where
  financial_resources : ℚ
  human_resources : ℚ
  reputation : ℚ
  stakeholder_satisfaction : Dict
  market_share : ℚ
  sustainability_rating : String
  active_challenges : List Event
  ongoing_events : List Event
  current_level : ℤ
  experience_points : ℤ
  company_size : CompanySize
  stakeholder_memories : List (String × List Memory)
deriving DecidableEq, Repr

/-- Modelled from the spec: one approach of a scenario (an enumerated
decision option with an identifier), from the missing
`app/core/models/scenario.py`. -/
structure Approach where
  id : String
deriving DecidableEq, Repr

/-- Modelled from the spec: the scenario object of the missing
`app/core/models/scenario.py` — approach list, difficulty in `[0,1]`,
optional time constraint with its creation instant (seconds), and the
parameter names `_validate_decision` checks. -/
structure Scenario where
  difficulty_level : ℚ
  possible_approaches : List Approach
  stakeholders_affected : List String
  time_constraint : Option ℚ
  created_at : ℚ
  required_parameters : List String
deriving DecidableEq, Repr

/-- Modelled from the spec: the decision input of the missing
`app/core/models/scenario.py` — the chosen approach identifier, the declared
impact deltas, the decision type recorded into stakeholder memories, the
submitted parameter names, and the time spent. -/
structure Decision where
  type_ : String
  approach_id : String
  impacts : Dict
  parameters : List String
  time_spent : ℚ
deriving DecidableEq, Repr

/-- The slice of `app/config.py` `Settings` that `GameLogic` reads. -/
structure Settings where
  STARTING_CAPITAL : ℚ
  STAKEHOLDER_TYPES : List String
deriving Repr

/-- The default configuration values of `app/config.py`. -/
def defaultSettings : Settings :=
  { STARTING_CAPITAL := 1000000
    STAKEHOLDER_TYPES :=
      ["employees", "customers", "investors", "community", "environment"] }

/-- `GameLogic._calculate_impact_modifier`: satisfaction-level adjustment
(`<30 → ×1.2`, `>70 → ×0.8`) times the company-size adjustment; the
satisfaction lookup is a bracket access and raises `KeyError` when the key
is absent. -/
def calculate_impact_modifier (gs : GameState) (stakeholder : String) :
    Except String ℚ :=
  match dget gs.stakeholder_satisfaction stakeholder with
  | none => .error ("KeyError: " ++ stakeholder)
  | some satisfaction =>
    let m1 : ℚ := if satisfaction < 30 then 6/5
      else if satisfaction > 70 then 4/5 else 1
    let m2 : ℚ :=
      match gs.company_size with
      | .small => 6/5
      | .medium => 1
      | .large => 4/5
    .ok (m1 * m2)

/-- `GameLogic._calculate_financial_impact`: raw financial delta × company
size multiplier × `(1 + market_share/100)`. -/
def calculate_financial_impact (d : Decision) (gs : GameState) : ℚ :=
  let sizeMult : ℚ :=
    match gs.company_size with
    | .small => 1/2
    | .medium => 1
    | .large => 2
  dgetD d.impacts "financial" 0 * sizeMult * (1 + gs.market_share / 100)

/-- `GameLogic._calculate_reputation_impact`: fixed weighted sum over the
five canonical stakeholders' resolved impacts, times the reputation
multiplier 1.5. -/
def calculate_reputation_impact (_d : Decision) (impacts : Dict) : ℚ :=
  (dgetD impacts "employees" 0 * (3/10) +
   dgetD impacts "customers" 0 * (3/10) +
   dgetD impacts "community" 0 * (1/5) +
   dgetD impacts "environment" 0 * (1/10) +
   dgetD impacts "investors" 0 * (1/10)) * (3/2)

/-- The per-key loop of `GameLogic._calculate_decision_impacts`: every key of
`decision.impacts` (including non-stakeholder keys such as `financial`) is
scaled by difficulty and by the state modifier of that key. -/
def scaleImpacts (sc : Scenario) (gs : GameState) :
    List (String × ℚ) → Dict → Except String Dict
  | [], acc => .ok acc
  | (k, v) :: rest, acc =>
    match calculate_impact_modifier gs k with
    | .error e => .error e
    | .ok m => scaleImpacts sc gs rest (dset acc k (v * sc.difficulty_level * m))

/-- `GameLogic._calculate_decision_impacts`. -/
def calculate_decision_impacts (d : Decision) (sc : Scenario) (gs : GameState) :
    Except String Dict :=
  match scaleImpacts sc gs d.impacts [] with
  | .error e => .error e
  | .ok base =>
    let withFin := dset base "financial" (calculate_financial_impact d gs)
    .ok (dset withFin "reputation" (calculate_reputation_impact d withFin))

/-- The stakeholder-satisfaction loop of `GameLogic._apply_impacts`: for each
canonical stakeholder present in the impacts, clamp `old + change` to
`[0,100]`; the current value is a bracket access. -/
def updateSatisfaction (impacts : Dict) :
    List String → Dict → Except String Dict
  | [], sat => .ok sat
  | s :: rest, sat =>
    match dget impacts s with
    | none => updateSatisfaction impacts rest sat
    | some change =>
      match dget sat s with
      | none => .error ("KeyError: " ++ s)
      | some current =>
        updateSatisfaction impacts rest
          (dset sat s (max 0 (min 100 (current + change))))

/-- `GameLogic._calculate_new_market_share`: the financial term divides by
the (already updated) financial resources with no zero guard. -/
def calculate_new_market_share (gs : GameState) (impacts : Dict) :
    Except String ℚ :=
  let reputation_change := dgetD impacts "reputation" 0 * (1/10)
  match pyDiv (dgetD impacts "financial" 0) gs.financial_resources with
  | .error e => .error e
  | .ok financial_change =>
    .ok (max 0 (min 100
      (gs.market_share + (reputation_change + financial_change) * (1/2))))

/-- `GameLogic._calculate_sustainability_rating`: letter band of
`0.6*environment + 0.4*community`; both lookups are bracket accesses. -/
def calculate_sustainability_rating (gs : GameState) : Except String String :=
  match dget gs.stakeholder_satisfaction "environment" with
  | none => .error "KeyError: environment"
  | some env =>
    match dget gs.stakeholder_satisfaction "community" with
    | none => .error "KeyError: community"
    | some com =>
      let s := env * (3/5) + com * (2/5)
      .ok (if s ≥ 90 then "A+"
        else if s ≥ 80 then "A"
        else if s ≥ 70 then "B+"
        else if s ≥ 60 then "B"
        else if s ≥ 50 then "C+"
        else if s ≥ 40 then "C"
        else "D")

/-- `GameLogic._apply_impacts`: update resources, clamp stakeholder
satisfaction, recompute market share (on the updated resources) and the
sustainability rating. -/
def apply_impacts (s : Settings) (gs : GameState) (impacts : Dict) :
    Except String GameState :=
  let st1 := { gs with
    financial_resources := gs.financial_resources + dgetD impacts "financial" 0
    reputation := gs.reputation + dgetD impacts "reputation" 0 }
  match updateSatisfaction impacts s.STAKEHOLDER_TYPES
      st1.stakeholder_satisfaction with
  | .error e => .error e
  | .ok sat =>
    let st2 := { st1 with stakeholder_satisfaction := sat }
    match calculate_new_market_share st2 impacts with
    | .error e => .error e
    | .ok ms =>
      let st3 := { st2 with market_share := ms }
      match calculate_sustainability_rating st3 with
      | .error e => .error e
      | .ok sr => .ok { st3 with sustainability_rating := sr }

/-- `GameLogic._check_triggered_events` over the updated state: stakeholder,
financial and reputation crises. -/
def check_triggered_events (s : Settings) (gs : GameState) (_impacts : Dict) :
    List Event :=
  (gs.stakeholder_satisfaction.filterMap (fun p =>
    if p.2 < 30 then
      some { type_ := "stakeholder_crisis", stakeholder := some p.1,
             severity := "high",
             description := "Critical " ++ p.1 ++ " satisfaction level" }
    else none)) ++
  (if gs.financial_resources < s.STARTING_CAPITAL * (1/5) then
    [{ type_ := "financial_crisis", stakeholder := none, severity := "high",
       description := "Critical financial situation" }] else []) ++
  (if gs.reputation < 30 then
    [{ type_ := "reputation_crisis", stakeholder := none, severity := "high",
       description := "Critical reputation level" }] else [])

/-- `GameLogic._handle_events`: append each event not already present. -/
def handle_events (gs : GameState) (events : List Event) : GameState :=
  { gs with ongoing_events :=
      (events.foldl
        (fun acc e => if e ∈ acc then acc else acc ++ [e])
        gs.ongoing_events) }

/-- `GameLogic._calculate_experience_points`: base 100, difficulty bonus,
balance bonus (non-zero impact count over the stakeholder-type count, a true
division that raises on an empty type list), and half the sum of the
positive impacts; truncated to an integer. -/
def calculate_experience_points (s : Settings) (_d : Decision)
    (impacts : Dict) (difficulty : ℚ) : Except String ℤ :=
  let base_xp : ℚ := 100
  let difficulty_bonus := base_xp * difficulty
  let stakeholder_count : ℚ :=
    ((impacts.filter (fun p => |p.2| > 0)).length : ℚ)
  match pyDiv stakeholder_count ((s.STAKEHOLDER_TYPES.length : ℚ)) with
  | .error e => .error e
  | .ok ratio =>
    let balance_bonus := base_xp * ratio
    let impact_bonus :=
      ((impacts.filter (fun p => p.2 > 0)).map Prod.snd).sum * (1/2)
    .ok (pyTrunc (base_xp + difficulty_bonus + balance_bonus + impact_bonus))

/-- `GameLogic._calculate_xp_needed`: `int(1000 * 1.5^(level-1))`. -/
def calculate_xp_needed (level : ℤ) : ℤ :=
  pyTrunc (1000 * qzpow (3/2) (level - 1))

/-- `GameLogic._check_level_up`: a single conditional increment. -/
def check_level_up (gs : GameState) : GameState :=
  if gs.experience_points ≥ calculate_xp_needed gs.current_level then
    { gs with current_level := gs.current_level + 1 }
  else gs

/-- Lookup in the stakeholder-memories map. -/
def mlookup (m : List (String × List Memory)) (k : String) :
    Option (List Memory) :=
  match m with
  | [] => none
  | (k', v) :: rest => if k' = k then some v else mlookup rest k

/-- Update in the stakeholder-memories map (replace or append). -/
def mset (m : List (String × List Memory)) (k : String) (v : List Memory) :
    List (String × List Memory) :=
  if (mlookup m k).isSome then
    m.map (fun p => if p.1 = k then (k, v) else p)
  else
    m ++ [(k, v)]

/-- `GameLogic._update_stakeholder_memories`: for each canonical stakeholder
present in the impacts, append a memory stamped `now` and prune entries
older than the 5-day memory window. -/
def update_stakeholder_memories (s : Settings) (now : ℤ) (gs : GameState)
    (d : Decision) (impacts : Dict) : GameState :=
  { gs with stakeholder_memories :=
      (s.STAKEHOLDER_TYPES.foldl
        (fun mm st =>
          match dget impacts st with
          | none => mm
          | some imp =>
            let existing := (mlookup mm st).getD []
            let appended := existing ++
              [{ decision_type := d.type_, impact := imp, timestamp := now }]
            mset mm st (appended.filter (fun m => now - m.timestamp < 5)))
        gs.stakeholder_memories) }

/-- `GameLogic.process_decision`: impact calculation, state mutation, event
handling, experience award, level-up check and memory update; any Python
exception on the way aborts the call. -/
def process_decision (s : Settings) (now : ℤ) (gs : GameState)
    (sc : Scenario) (d : Decision) : Except String (GameState × Dict) :=
  match calculate_decision_impacts d sc gs with
  | .error e => .error e
  | .ok impacts =>
    match apply_impacts s gs impacts with
    | .error e => .error e
    | .ok st1 =>
      let events := check_triggered_events s st1 impacts
      let st2 := if events.isEmpty then st1 else handle_events st1 events
      match calculate_experience_points s d impacts sc.difficulty_level with
      | .error e => .error e
      | .ok xp =>
        let st3 := { st2 with
          experience_points := st2.experience_points + xp }
        let st4 := check_level_up st3
        .ok (update_stakeholder_memories s now st4 d impacts, impacts)

/-- `_validate_decision` of `app/api/endpoints/scenarios.py`: approach-id
membership, then the optional time constraint (a falsy constraint is
skipped), then the parameter-name check. -/
def validate_decision (nowSec : ℚ) (d : Decision) (sc : Scenario) : Bool :=
  if d.approach_id ∉ sc.possible_approaches.map Approach.id then
    false
  else
    let timeBad :=
      match sc.time_constraint with
      | none => false
      | some tc => if tc = 0 then false else decide (nowSec - sc.created_at > tc)
    if timeBad then false
    else d.parameters.all (fun p => p ∈ sc.required_parameters)

/-- The decision path of the `submit_decision` endpoint
(`app/api/endpoints/scenarios.py`): reject with HTTP 400 when
`_validate_decision` fails, otherwise run `process_decision`. -/
def submit_decision (s : Settings) (nowSec : ℚ) (now : ℤ) (gs : GameState)
    (sc : Scenario) (d : Decision) : Except String (GameState × Dict) :=
  if validate_decision nowSec d sc then process_decision s now gs sc d
  else .error "Invalid decision for scenario"

/-- The game state the endpoint persists after a submission: the new state on
success, the untouched prior state on rejection (`update_game_state` only
runs after a successful `process_decision`). -/
def stored_state_after (s : Settings) (nowSec : ℚ) (now : ℤ) (gs : GameState)
    (sc : Scenario) (d : Decision) : GameState :=
  match submit_decision s nowSec now gs sc d with
  | .ok (st, _) => st
  | .error _ => gs

end GameLogic

namespace PatternAnalyzer

/-- A numpy/python float that may be `nan` (or `±inf`): `none` stands for
the non-finite values, which arise only from numpy operations (mean or
standard deviation of an empty array, numpy-scalar division by zero) and
propagate through arithmetic; no claim observes the distinction between
`nan` and `inf`. -/
abbrev PF := Option ℚ

/-- Addition with nan propagation. -/
def pfAdd : PF → PF → PF
  | some a, some b => some (a + b)
  | _, _ => none

/-- Subtraction with nan propagation. -/
def pfSub : PF → PF → PF
  | some a, some b => some (a - b)
  | _, _ => none

/-- Multiplication with nan propagation. -/
def pfMul : PF → PF → PF
  | some a, some b => some (a * b)
  | _, _ => none

/-- Absolute value with nan propagation. -/
def pfAbs : PF → PF
  | some a => some |a|
  | none => none

/-- Division by a rational constant; a zero divisor yields a non-finite
value (numpy semantics, no exception). -/
def pfDivQ (x : PF) (q : ℚ) : PF :=
  if q = 0 then none else x.map (· / q)

/-- Python `<` on possibly-nan floats: every comparison with nan is false. -/
def pfLt : PF → PF → Bool
  | some a, some b => decide (a < b)
  | _, _ => false

/-- Python `min(a, b)`: keeps the first argument unless the second compares
strictly smaller (so `min(nan, x) = nan` and `min(x, nan) = x`). -/
def pymin (a b : PF) : PF := if pfLt b a then b else a

/-- Python `max(a, b)`: keeps the first argument unless the second compares
strictly larger. -/
def pymax (a b : PF) : PF := if pfLt a b then b else a

/-- Sum with nan propagation. -/
def pfSum (xs : List PF) : PF := xs.foldl pfAdd (some 0)

/-- `np.mean`: nan on an empty array (a warning in numpy, not an error). -/
def npMean (xs : List PF) : PF :=
  if xs.isEmpty then none else pfDivQ (pfSum xs) (xs.length : ℚ)

/-- numpy scalar division: never raises; a zero or non-finite divisor yields
a non-finite value. -/
def npDiv (a b : PF) : PF :=
  match b with
  | none => none
  | some q => if q = 0 then none else a.map (· / q)

/-- `np.std`, modelled by the mean squared deviation: the source takes its
square root, which has no exact rational value; every analysis path below
discards the value before it can reach an output (the skill-assessment step
always fails first), so only its nan/at-all-defined structure matters. -/
def npStd (xs : List PF) : PF :=
  npMean (xs.map (fun x => pfMul (pfSub x (npMean xs)) (pfSub x (npMean xs))))

/-- Keep-first deduplication (Python `set`/first-occurrence key order). -/
def dedupFirst (l : List String) : List String :=
  l.foldl (fun acc s => if s ∈ acc then acc else acc ++ [s]) []

/-- The `Decision` dataclass of
`app/core/analytics/pattern_analyzer.py`; timestamps are integer instants
and `time_spent` an integer second count, as in the source. -/
structure Decision where
  id : String
  timestamp : ℤ
  scenario_type : String
  choice : String
  stakeholders_affected : List String
  impacts : Dict
  rationale : String
  time_spent : ℤ
  difficulty_level : ℚ
deriving DecidableEq, Repr

/-- The `LearningPattern` dataclass of the source. -/
structure LearningPattern where
  bias_score : PF
  confidence : PF
  stakeholder_preferences : List (String × PF)
  avoided_topics : List String
  skill_levels : List (String × PF)
  learning_rate : PF
  decision_speed : PF
  consistency_score : PF
deriving DecidableEq, Repr

/-- Stable insertion of a decision after all earlier-or-equal timestamps. -/
def insertByTime (d : Decision) : List Decision → List Decision
  | [] => [d]
  | e :: es =>
    if e.timestamp ≤ d.timestamp then e :: insertByTime d es else d :: e :: es

/-- `sorted(decisions, key=lambda x: x.timestamp)` (stable). -/
def sortByTime (ds : List Decision) : List Decision :=
  ds.foldl (fun acc d => insertByTime d acc) []

/-- Python `l[-n:]`. -/
def lastN (n : ℕ) (l : List Decision) : List Decision :=
  l.drop (l.length - n)

/-- Per-decision short-term-vs-long-term component of the bias score. -/
def biasComp1 (d : Decision) : ℚ :=
  (dgetD d.impacts "immediate" 0 - dgetD d.impacts "long_term" 0) / 100

/-- `np.mean` of the impacts on a decision's affected stakeholders. -/
def stakeholderMeanImpact (d : Decision) : PF :=
  npMean (d.stakeholders_affected.map (fun s => some (dgetD d.impacts s 0)))

/-- Per-decision financial-vs-stakeholder component of the bias score. -/
def biasComp2 (d : Decision) : PF :=
  pfDivQ (pfSub (some (dgetD d.impacts "financial" 0))
    (stakeholderMeanImpact d)) 100

/-- `PatternAnalyzer._calculate_bias_score`: the three accumulators
`short_term`, `financial`, `stakeholder` (the last never written) receive
per-decision SUMS, and their `np.mean` is returned. -/
def calculate_bias_score (ds : List Decision) : PF :=
  let s := ds.foldl
    (fun acc d => (pfAdd acc.1 (some (biasComp1 d)), pfAdd acc.2 (biasComp2 d)))
    (some 0, some 0)
  npMean [s.1, s.2, some 0]

/-- `PatternAnalyzer._calculate_impact_similarity`: one minus the mean
normalized key-wise distance over the union of the two key sets. -/
def calculate_impact_similarity (i1 i2 : Dict) : PF :=
  let allKeys := dedupFirst (i1.map Prod.fst ++ i2.map Prod.fst)
  pfSub (some 1)
    (npMean (allKeys.map (fun k => some (|dgetD i1 k 0 - dgetD i2 k 0| / 200))))

/-- `PatternAnalyzer._calculate_decision_similarity`: mean of the impact
similarity and the stakeholder-set Jaccard similarity; the Jaccard division
raises `ZeroDivisionError` when both stakeholder sets are empty. -/
def calculate_decision_similarity (d1 d2 : Decision) : Except String PF :=
  let isim := calculate_impact_similarity d1.impacts d2.impacts
  let s1 := dedupFirst d1.stakeholders_affected
  let s2 := dedupFirst d2.stakeholders_affected
  let inter := (s1.filter (fun x => x ∈ s2)).length
  let union := (s1 ++ s2.filter (fun x => x ∉ s1)).length
  match pyDiv (inter : ℚ) (union : ℚ) with
  | .error e => .error e
  | .ok ssim => .ok (pfDivQ (pfAdd isim (some ssim)) 2)

/-- The consistency factor of `_calculate_confidence`: similarity of each
consecutive pair with equal `scenario_type`, called as
`similarity(current, previous)`. -/
def consecutiveSims : List Decision → Except String (List PF)
  | d1 :: d2 :: rest =>
    if d2.scenario_type = d1.scenario_type then
      match calculate_decision_similarity d2 d1 with
      | .error e => .error e
      | .ok s =>
        match consecutiveSims (d2 :: rest) with
        | .error e => .error e
        | .ok l => .ok (s :: l)
    else consecutiveSims (d2 :: rest)
  | _ => .ok []

/-- `PatternAnalyzer._calculate_confidence` over the five most recent
decisions: time-spent consistency, consecutive-decision similarity
(default 0.5), and a `changes` ratio whose numerator is never incremented
(its division raises when the window is empty); clamped to `[0,1]`. -/
def calculate_confidence (ds : List Decision) : Except String PF :=
  let recent := lastN 5 (sortByTime ds)
  let avg := npMean (recent.map (fun e => some ((e.time_spent : ℚ))))
  let timeNorms := recent.map
    (fun d => pymin (npDiv (some ((d.time_spent : ℚ))) avg) (some 2))
  match consecutiveSims recent with
  | .error e => .error e
  | .ok cons =>
    match pyDiv 0 ((recent.length : ℚ)) with
    | .error e => .error e
    | .ok third =>
      .ok (pymax (some 0) (pymin (some 1) (npMean
        [pfSub (some 1) (npStd timeNorms),
         (if cons.isEmpty then some (1/2) else npMean cons),
         pfSub (some 1) (some third)])))

/-- First-occurrence order of affected stakeholders across the history. -/
def prefKeys (ds : List Decision) : List String :=
  dedupFirst ((ds.map (fun d => d.stakeholders_affected)).flatten)

/-- The impact observations collected for one stakeholder (one entry per
occurrence in a decision's affected list). -/
def prefValuesFor (ds : List Decision) (s : String) : List ℚ :=
  ((ds.map (fun d => d.stakeholders_affected.filterMap
    (fun t => if t = s then some (dgetD d.impacts s 0) else none))).flatten)

/-- `PatternAnalyzer._analyze_stakeholder_preferences`:
`(mean impact + 100) / 200` per observed stakeholder. -/
def analyze_stakeholder_preferences (ds : List Decision) :
    List (String × PF) :=
  (prefKeys ds).map (fun s =>
    (s, pfDivQ (pfAdd (npMean ((prefValuesFor ds s).map some)) (some 100)) 200))

/-- `PatternAnalyzer._is_avoidance_behavior`: under 15 seconds and mean
absolute impact below 10 (false when the mean is nan, as every nan
comparison is). -/
def is_avoidance_behavior (d : Decision) : Bool :=
  decide (d.time_spent < 15) &&
    pfLt (pfAbs (npMean (d.impacts.map (fun p => some p.2)))) (some 10)

/-- First-occurrence order of scenario types. -/
def typeKeys (ds : List Decision) : List String :=
  dedupFirst (ds.map (fun d => d.scenario_type))

/-- `PatternAnalyzer._identify_avoided_topics`: a topic is avoided when its
avoidance ratio exceeds 0.7 (the denominator is the topic's occurrence
count, at least 1 for every listed topic). -/
def identify_avoided_topics (ds : List Decision) : List String :=
  (typeKeys ds).filter (fun t =>
    let total := (ds.filter (fun d => d.scenario_type = t)).length
    let avoid := (ds.filter
      (fun d => d.scenario_type = t && is_avoidance_behavior d)).length
    decide (((avoid : ℚ)) / ((total : ℚ)) > 7/10))

/-- `PatternAnalyzer._assess_skill_levels`: the per-decision scoring calls
`self._calculate_skill_score`, a method defined nowhere in the repository,
so the first loop iteration raises `AttributeError`; with no decisions the
loop body never runs and the empty mapping is returned. -/
def assess_skill_levels (ds : List Decision) :
    Except String (List (String × PF)) :=
  if ds.isEmpty then .ok []
  else .error "AttributeError: _calculate_skill_score"

/-- `PatternAnalyzer._calculate_window_performance`:
`(mean impact + 100)/200 × difficulty`, averaged over the window. -/
def calculate_window_performance (w : List Decision) : PF :=
  npMean (w.map (fun d =>
    pfMul (pfDivQ (pfAdd (npMean (d.impacts.map (fun p => some p.2)))
      (some 100)) 200) (some d.difficulty_level)))

/-- `np.polyfit(…, 1)[0]`: the least-squares slope over `x = 0, …, n−1`;
a nan input makes the underlying least-squares routine fail. -/
def polyfitSlope (ys : List PF) : Except String ℚ :=
  if ys.any (fun y => y.isNone) then .error "LinAlgError"
  else
    let vals := ys.filterMap id
    let n : ℚ := (vals.length : ℚ)
    let xbar := (n - 1) / 2
    let ybar := vals.sum / n
    let num := ((List.range vals.length).zip vals).foldl
      (fun acc p => acc + (((p.1 : ℚ)) - xbar) * (p.2 - ybar)) 0
    let den := (List.range vals.length).foldl
      (fun acc i => acc + (((i : ℚ)) - xbar) ^ 2) 0
    match pyDiv num den with
    | .error e => .error e
    | .ok slope => .ok slope

/-- `PatternAnalyzer._calculate_learning_rate`: 0.5 under ten decisions;
otherwise the trend slope over sliding 5-windows, mapped by `(slope+1)/2`
and clamped. -/
def calculate_learning_rate (ds : List Decision) : Except String PF :=
  if ds.length < 10 then .ok (some (1/2))
  else
    let sorted := sortByTime ds
    let trend := (List.range (ds.length - 5)).map
      (fun i => calculate_window_performance ((sorted.drop i).take 5))
    if trend.isEmpty then .ok (some (1/2))
    else
      match polyfitSlope trend with
      | .error e => .error e
      | .ok slope => .ok (pymax (some 0) (pymin (some 1) (some ((slope + 1) / 2))))

/-- The per-decision `expected_time / actual_time` ratios of
`_analyze_decision_speed`; a zero `time_spent` raises. -/
def speedScores : List Decision → Except String (List ℚ)
  | [] => .ok []
  | d :: rest =>
    match pyDiv (30 + 90 * d.difficulty_level) ((d.time_spent : ℚ)) with
    | .error e => .error e
    | .ok sc =>
      match speedScores rest with
      | .error e => .error e
      | .ok l => .ok (sc :: l)

/-- `PatternAnalyzer._analyze_decision_speed`: 0.5 on an empty history,
else the clamped mean speed ratio. -/
def analyze_decision_speed (ds : List Decision) : Except String PF :=
  if ds.isEmpty then .ok (some (1/2))
  else
    match speedScores ds with
    | .error e => .error e
    | .ok scores => .ok (pymax (some 0) (pymin (some 1) (npMean (scores.map some))))

/-- All similarities of one decision against a list, in order. -/
def simsWith (d : Decision) : List Decision → Except String (List PF)
  | [] => .ok []
  | e :: rest =>
    match calculate_decision_similarity d e with
    | .error er => .error er
    | .ok s =>
      match simsWith d rest with
      | .error er => .error er
      | .ok l => .ok (s :: l)

/-- All ordered pairwise similarities (`i < j`) within a group. -/
def pairSims : List Decision → Except String (List PF)
  | [] => .ok []
  | d :: rest =>
    match simsWith d rest with
    | .error er => .error er
    | .ok l1 =>
      match pairSims rest with
      | .error er => .error er
      | .ok l2 => .ok (l1 ++ l2)

/-- The per-scenario-type mean similarities of `_calculate_consistency`
(types with fewer than two decisions are skipped). -/
def groupScores (ds : List Decision) : List String → Except String (List PF)
  | [] => .ok []
  | t :: rest =>
    let group := ds.filter (fun d => d.scenario_type = t)
    if group.length < 2 then groupScores ds rest
    else
      match pairSims group with
      | .error er => .error er
      | .ok sims =>
        match groupScores ds rest with
        | .error er => .error er
        | .ok l => .ok (if sims.isEmpty then l else npMean sims :: l)

/-- `PatternAnalyzer._calculate_consistency`: 0.5 under three decisions,
else the mean of per-type mean pairwise similarities (0.5 if no type has
two decisions). -/
def calculate_consistency (ds : List Decision) : Except String PF :=
  if ds.length < 3 then .ok (some (1/2))
  else
    match groupScores ds (typeKeys ds) with
    | .error er => .error er
    | .ok scores => .ok (if scores.isEmpty then some (1/2) else npMean scores)

/-- `PatternAnalyzer._generate_initial_pattern`: the cold-start profile of
the source — note that its stakeholder preferences list `employees`,
`community`, `investors` and `environment` only. -/
def generate_initial_pattern : LearningPattern :=
  { bias_score := some 0
    confidence := some (1/2)
    stakeholder_preferences :=
      [("employees", some (1/2)), ("community", some (1/2)),
       ("investors", some (1/2)), ("environment", some (1/2))]
    avoided_topics := []
    skill_levels :=
      [("stakeholder_management", some (3/10)), ("ethical_reasoning", some (3/10)),
       ("strategic_thinking", some (3/10)), ("leadership", some (3/10))]
    learning_rate := some (1/2)
    decision_speed := some (1/2)
    consistency_score := some (1/2) }

/-- The body of the `try` block of `analyze_patterns`: the eight profile
fields, evaluated in the source's keyword order; the first Python exception
aborts the block. -/
def tryComputePattern (ds : List Decision) : Except String LearningPattern :=
  let bias := calculate_bias_score ds
  match calculate_confidence ds with
  | .error e => .error e
  | .ok conf =>
    let prefs := analyze_stakeholder_preferences ds
    let avoided := identify_avoided_topics ds
    match assess_skill_levels ds with
    | .error e => .error e
    | .ok skills =>
      match calculate_learning_rate ds with
      | .error e => .error e
      | .ok lr =>
        match analyze_decision_speed ds with
        | .error e => .error e
        | .ok speed =>
          match calculate_consistency ds with
          | .error e => .error e
          | .ok cons =>
            .ok { bias_score := bias, confidence := conf,
                  stakeholder_preferences := prefs, avoided_topics := avoided,
                  skill_levels := skills, learning_rate := lr,
                  decision_speed := speed, consistency_score := cons }

/-- `PatternAnalyzer.analyze_patterns`: the cold-start profile below the
sample threshold; above it, any exception in the `try` block is caught and
the cold-start profile substituted. -/
def analyze_patterns (min_decisions : ℕ) (ds : List Decision)
    (_current_level : ℤ) : LearningPattern :=
  if ds.length < min_decisions then generate_initial_pattern
  else
    match tryComputePattern ds with
    | .ok p => p
    | .error _ => generate_initial_pattern

end PatternAnalyzer

/-! Concrete inputs and claim-side reference definitions. -/

/-- The spec's §8 starting state: 1,000,000 capital, reputation 50, all five
stakeholder satisfactions 50, market share 5, level 1, no experience, small
company. -/
def specStartState : GameLogic.GameState :=
  { financial_resources := 1000000
    human_resources := 10
    reputation := 50
    stakeholder_satisfaction :=
      [("employees", 50), ("customers", 50), ("investors", 50),
       ("community", 50), ("environment", 50)]
    market_share := 5
    sustainability_rating := "C"
    active_challenges := []
    ongoing_events := []
    current_level := 1
    experience_points := 0
    company_size := .small
    stakeholder_memories := [] }

/-- A scenario with a single approach `option_a` and difficulty 0.5. -/
def specScenario : GameLogic.Scenario :=
  { difficulty_level := 1/2
    possible_approaches := [⟨"option_a"⟩]
    stakeholders_affected := ["employees"]
    time_constraint := none
    created_at := 0
    required_parameters := [] }

/-- A decision whose approach identifier is not among the scenario's
approaches and whose impacts map is empty. -/
def invalidChoiceDecision : GameLogic.Decision :=
  { type_ := "standard"
    approach_id := "not_an_approach"
    impacts := []
    parameters := []
    time_spent := 30 }

/-- The claim C2 decision: impacts `{employees: +20, financial: -10000}`. -/
def c2Decision : GameLogic.Decision :=
  { type_ := "standard"
    approach_id := "option_a"
    impacts := [("employees", 20), ("financial", -10000)]
    parameters := []
    time_spent := 30 }

/-- A valid decision touching only the `employees` stakeholder. -/
def employeesDecision : GameLogic.Decision :=
  { type_ := "standard"
    approach_id := "option_a"
    impacts := [("employees", 20)]
    parameters := []
    time_spent := 30 }

/-- The spec-state with its financial resources at exactly zero. -/
def zeroFundsState : GameLogic.GameState :=
  { specStartState with financial_resources := 0 }

/-- The spec-state with negative financial resources and market share 50. -/
def negFundsState : GameLogic.GameState :=
  { specStartState with financial_resources := -1000, market_share := 50 }

/-- Resolved impacts `{financial: 100, reputation: 0}`. -/
def fin100Impacts : Dict := [("financial", 100), ("reputation", 0)]

/-- The market-share update as claim C3 words it: the financial term
`impacts.financial / financial_resources` is treated as zero whenever the
resources are zero or negative, and the update never fails. -/
def claimMarketShare (gs : GameLogic.GameState) (impacts : Dict) : ℚ :=
  let finTerm :=
    if gs.financial_resources ≤ 0 then 0
    else dgetD impacts "financial" 0 / gs.financial_resources
  max 0 (min 100
    (gs.market_share + (dgetD impacts "reputation" 0 * (1/10) + finTerm) * (1/2)))

/-- The state of a successful `process_decision` result (the prior state on
failure). -/
def okStateOf (r : Except String (GameLogic.GameState × Dict))
    (dflt : GameLogic.GameState) : GameLogic.GameState :=
  match r with
  | .ok (st, _) => st
  | .error _ => dflt

/-- The impacts of a successful `process_decision` result. -/
def okImpactsOf (r : Except String (GameLogic.GameState × Dict)) : Dict :=
  match r with
  | .ok (_, i) => i
  | .error _ => []

/-- The result of processing `employeesDecision` from the spec start
state. -/
def employeesRun : Except String (GameLogic.GameState × Dict) :=
  GameLogic.process_decision GameLogic.defaultSettings 0 specStartState
    specScenario employeesDecision

/-- The cold-start profile as claim C6 words it: a 0.5 preference for every
one of the five canonical stakeholders, `customers` included. -/
def claimColdStart : PatternAnalyzer.LearningPattern :=
  { bias_score := some 0
    confidence := some (1/2)
    stakeholder_preferences :=
      [("employees", some (1/2)), ("customers", some (1/2)),
       ("investors", some (1/2)), ("community", some (1/2)),
       ("environment", some (1/2))]
    avoided_topics := []
    skill_levels :=
      [("stakeholder_management", some (3/10)), ("ethical_reasoning", some (3/10)),
       ("strategic_thinking", some (3/10)), ("leadership", some (3/10))]
    learning_rate := some (1/2)
    decision_speed := some (1/2)
    consistency_score := some (1/2) }

/-- A single analytics decision with deliberately malformed content (zero
time spent, no affected stakeholders, empty impacts). -/
def weirdDecision : PatternAnalyzer.Decision :=
  { id := "w"
    timestamp := -3
    scenario_type := "layoffs"
    choice := ""
    stakeholders_affected := []
    impacts := []
    rationale := ""
    time_spent := 0
    difficulty_level := -2 }

/-- A well-formed analytics decision with index `i` and scenario type
`ty`. -/
def mkAnalyticsDecision (i : ℕ) (ty : String) : PatternAnalyzer.Decision :=
  { id := toString i
    timestamp := (i : ℤ)
    scenario_type := ty
    choice := "c"
    stakeholders_affected := ["employees"]
    impacts := [("employees", 50)]
    rationale := ""
    time_spent := 10
    difficulty_level := 1/2 }

/-- Five well-formed decisions of pairwise distinct scenario types. -/
def fiveDecisions : List PatternAnalyzer.Decision :=
  [mkAnalyticsDecision 0 "t0", mkAnalyticsDecision 1 "t1",
   mkAnalyticsDecision 2 "t2", mkAnalyticsDecision 3 "t3",
   mkAnalyticsDecision 4 "t4"]

/-- An analytics decision whose only impact is `{immediate: 100}`. -/
def mkImmediateDecision (i : ℕ) : PatternAnalyzer.Decision :=
  { id := toString i
    timestamp := (i : ℤ)
    scenario_type := "t"
    choice := "c"
    stakeholders_affected := ["employees"]
    impacts := [("immediate", 100)]
    rationale := ""
    time_spent := 20
    difficulty_level := 1/2 }

/-- Five `{immediate: 100}` decisions — at the default sample threshold. -/
def immediateHistory : List PatternAnalyzer.Decision :=
  [mkImmediateDecision 0, mkImmediateDecision 1, mkImmediateDecision 2,
   mkImmediateDecision 3, mkImmediateDecision 4]

/-- Mean of a rational list (claim-side notation for `np.mean`). -/
def listMeanQ (l : List ℚ) : ℚ := l.sum / (l.length : ℚ)

/-- The per-decision financial-vs-stakeholder bias component, written with
an ordinary mean (equal to `PatternAnalyzer.biasComp2` whenever the
decision affects at least one stakeholder). -/
def claimComp2 (d : PatternAnalyzer.Decision) : ℚ :=
  (dgetD d.impacts "financial" 0 -
    listMeanQ (d.stakeholders_affected.map (fun s => dgetD d.impacts s 0))) / 100

/-- The bias score as claim C8 words it: the two per-decision components
averaged over the decisions, and those two averages then averaged
together. -/
def claimedBiasScore (ds : List PatternAnalyzer.Decision) : ℚ :=
  (listMeanQ (ds.map PatternAnalyzer.biasComp1) +
   listMeanQ (ds.map claimComp2)) / 2

/-- Whether a game-logic call succeeded. -/
def exceptIsOk (r : Except String (GameLogic.GameState × Dict)) : Bool :=
  match r with
  | .ok _ => true
  | .error _ => false

/-! Theorems. -/

/-- Membership of a binding after `dset`: it is an old binding or the new
one. -/
theorem mem_dset {m : Dict} {k : String} {v : ℚ} {p : String × ℚ}
    (h : p ∈ dset m k v) : p ∈ m ∨ p = (k, v) := by
  unfold dset at h
  split at h
  · rcases List.mem_map.mp h with ⟨q, hq, hval⟩
    by_cases hk : q.1 = k
    · right; rw [if_pos hk] at hval; exact hval.symm
    · left; rw [if_neg hk] at hval; rwa [hval] at hq
  · rcases List.mem_append.mp h with h1 | h1
    · exact Or.inl h1
    · right; simpa using h1

/-- C1, counterexample: a decision whose approach identifier is not among
the scenario's approaches is nevertheless processed successfully by
`process_decision` — the claimed validation failure does not occur there. -/
theorem c1_counterexample :
    invalidChoiceDecision.approach_id ∉
      (specScenario.possible_approaches.map GameLogic.Approach.id) ∧
    exceptIsOk (GameLogic.process_decision GameLogic.defaultSettings 0
      specStartState specScenario invalidChoiceDecision) = true :=
  ⟨by decide, by rfl⟩

/-- C1, amended: `process_decision` performs no approach validation; the
rejection of an unknown approach identifier is the API layer's
`_validate_decision` check inside `submit_decision`, which fails the
submission with the 400 detail string before `process_decision` runs and
leaves the stored state unchanged. -/
theorem c1_amended_validation_in_endpoint (s : GameLogic.Settings)
    (nowSec : ℚ) (now : ℤ) (gs : GameLogic.GameState)
    (sc : GameLogic.Scenario) (d : GameLogic.Decision)
    (h : d.approach_id ∉ sc.possible_approaches.map GameLogic.Approach.id) :
    GameLogic.validate_decision nowSec d sc = false ∧
    GameLogic.submit_decision s nowSec now gs sc d =
      .error "Invalid decision for scenario" ∧
    GameLogic.stored_state_after s nowSec now gs sc d = gs := by
  have hv : GameLogic.validate_decision nowSec d sc = false := by
    unfold GameLogic.validate_decision
    simp [h]
  refine ⟨hv, ?_, ?_⟩
  · unfold GameLogic.submit_decision
    simp [hv]
  · unfold GameLogic.stored_state_after GameLogic.submit_decision
    simp [hv]

/-- C1, witness for the amended theorem at a concrete rejected
submission. -/
theorem c1_amended_witness :
    invalidChoiceDecision.approach_id ∉
      (specScenario.possible_approaches.map GameLogic.Approach.id) ∧
    GameLogic.validate_decision 0 invalidChoiceDecision specScenario = false ∧
    GameLogic.submit_decision GameLogic.defaultSettings 0 0 specStartState
      specScenario invalidChoiceDecision =
      .error "Invalid decision for scenario" ∧
    GameLogic.stored_state_after GameLogic.defaultSettings 0 0 specStartState
      specScenario invalidChoiceDecision = specStartState := by
  have h : invalidChoiceDecision.approach_id ∉
      (specScenario.possible_approaches.map GameLogic.Approach.id) := by decide
  have hall := c1_amended_validation_in_endpoint GameLogic.defaultSettings 0 0
    specStartState specScenario invalidChoiceDecision h
  exact ⟨h, hall.1, hall.2.1, hall.2.2⟩

/-- C2: at the spec's §8 starting state, the decision
`{employees: +20, financial: -10000}` at difficulty 0.5 does not succeed:
the impact-scaling loop of `_calculate_decision_impacts` iterates over the
`financial` key and its state-modifier lookup
`stakeholder_satisfaction['financial']` raises `KeyError`, which
`process_decision` re-raises. -/
theorem c2_keyerror_on_financial :
    GameLogic.process_decision GameLogic.defaultSettings 0 specStartState
      specScenario c2Decision = .error "KeyError: financial" := by rfl

/-- C3: with financial resources at zero the market-share update raises
`ZeroDivisionError`, and with negative resources it uses the real quotient
`100 / (-1000)` instead of the claimed zero term, giving 49.95 where the
claim's formula gives 50. -/
theorem c3_market_share_no_guard :
    GameLogic.calculate_new_market_share zeroFundsState fin100Impacts =
      .error "ZeroDivisionError" ∧
    GameLogic.calculate_new_market_share negFundsState fin100Impacts =
      .ok (999/20) ∧
    (999/20 : ℚ) ≠ claimMarketShare negFundsState fin100Impacts :=
  ⟨by rfl, by rfl, by decide⟩

/-- C6, counterexample: the source's cold-start profile carries no
`customers` preference, while the claim requires a 0.5 preference for every
canonical stakeholder, `customers` included. -/
theorem c6_counterexample :
    List.lookup "customers"
      (PatternAnalyzer.analyze_patterns 5 [] 0).stakeholder_preferences =
      none ∧
    List.lookup "customers" claimColdStart.stakeholder_preferences =
      some (some (1/2)) ∧
    PatternAnalyzer.analyze_patterns 5 [] 0 ≠ claimColdStart :=
  ⟨by rfl, by rfl, by decide⟩

/-- C6, amended: below the sample threshold `analyze_patterns` returns the
source's fixed cold-start profile regardless of the decisions' content
(bias 0, confidence 0.5, 0.5 preferences for employees, community,
investors and environment — `customers` is absent — no avoided topics, all
four skills 0.3, learning rate 0.5, decision speed 0.5, consistency
0.5). -/
theorem analyze_patterns_cold_start (m : ℕ)
    (ds : List PatternAnalyzer.Decision) (lvl : ℤ) (h : ds.length < m) :
    PatternAnalyzer.analyze_patterns m ds lvl =
      PatternAnalyzer.generate_initial_pattern := by
  unfold PatternAnalyzer.analyze_patterns
  simp [h]

/-- C6, witness: one malformed decision is below the default threshold of
five and yields exactly the cold-start profile. -/
theorem analyze_patterns_cold_start_witness :
    [weirdDecision].length < 5 ∧
    PatternAnalyzer.analyze_patterns 5 [weirdDecision] 7 =
      PatternAnalyzer.generate_initial_pattern :=
  ⟨by decide, analyze_patterns_cold_start 5 [weirdDecision] 7 (by decide)⟩

/-- C7: `analyze_patterns` is a total function that reacts to any exception
inside its `try` block by returning the cold-start profile: whenever the
field computation fails, the cold-start profile is the result. -/
theorem analyze_patterns_fail_soft (m : ℕ)
    (ds : List PatternAnalyzer.Decision) (lvl : ℤ) (e : String)
    (h : PatternAnalyzer.tryComputePattern ds = .error e) :
    PatternAnalyzer.analyze_patterns m ds lvl =
      PatternAnalyzer.generate_initial_pattern := by
  unfold PatternAnalyzer.analyze_patterns
  split
  · rfl
  · rw [h]

/-- C7, witness: five well-formed decisions reach the threshold, the field
computation fails (the skill assessment calls a method the repository never
defines), and the cold-start profile is returned. -/
theorem analyze_patterns_fail_soft_witness :
    PatternAnalyzer.tryComputePattern fiveDecisions =
      .error "AttributeError: _calculate_skill_score" ∧
    PatternAnalyzer.analyze_patterns 5 fiveDecisions 0 =
      PatternAnalyzer.generate_initial_pattern :=
  ⟨by rfl, analyze_patterns_fail_soft 5 fiveDecisions 0
    "AttributeError: _calculate_skill_score" (by rfl)⟩

/-- C8, counterexample: at five `{immediate: 100}` decisions (at the
default sample threshold) the source's bias score is 5/3, not the claimed
average-of-averages 1/2. -/
theorem c8_counterexample :
    5 ≤ immediateHistory.length ∧
    PatternAnalyzer.calculate_bias_score immediateHistory ≠
      some (claimedBiasScore immediateHistory) :=
  ⟨by decide, by decide⟩

/-- C10: the `current_level` argument of `analyze_patterns` has no
influence on the returned profile. -/
theorem analyze_patterns_level_independent (m : ℕ)
    (ds : List PatternAnalyzer.Decision) (l1 l2 : ℤ) :
    PatternAnalyzer.analyze_patterns m ds l1 =
      PatternAnalyzer.analyze_patterns m ds l2 := rfl

/-- The clamp `max 0 (min 100 x)` is at least 0. -/
theorem clamp_nonneg (x : ℚ) : 0 ≤ max 0 (min 100 x) := le_max_left 0 _

/-- The clamp `max 0 (min 100 x)` is at most 100. -/
theorem clamp_le (x : ℚ) : max 0 (min 100 x) ≤ 100 :=
  max_le (by norm_num) (min_le_left _ _)

/-- The satisfaction loop keeps every binding inside `[0,100]`. -/
theorem updateSatisfaction_bounds (impacts : Dict) (keys : List String) :
    ∀ sat sat' : Dict,
    (∀ p ∈ sat, 0 ≤ p.2 ∧ p.2 ≤ 100) →
    GameLogic.updateSatisfaction impacts keys sat = .ok sat' →
    ∀ p ∈ sat', 0 ≤ p.2 ∧ p.2 ≤ 100 := by
  induction keys with
  | nil =>
    intro sat sat' hb hok
    unfold GameLogic.updateSatisfaction at hok
    cases hok
    exact hb
  | cons s rest ih =>
    intro sat sat' hb hok
    unfold GameLogic.updateSatisfaction at hok
    cases hc : dget impacts s with
    | none =>
      rw [hc] at hok
      exact ih sat sat' hb hok
    | some change =>
      rw [hc] at hok
      cases hcur : dget sat s with
      | none =>
        rw [hcur] at hok
        cases hok
      | some current =>
        rw [hcur] at hok
        refine ih _ sat' ?_ hok
        intro p hp
        rcases mem_dset hp with h1 | h1
        · exact hb p h1
        · rw [h1]
          exact ⟨clamp_nonneg _, clamp_le _⟩

/-- A successful market-share update lies in `[0,100]`. -/
theorem calculate_new_market_share_bounds (gs : GameLogic.GameState)
    (impacts : Dict) (ms : ℚ)
    (hok : GameLogic.calculate_new_market_share gs impacts = .ok ms) :
    0 ≤ ms ∧ ms ≤ 100 := by
  unfold GameLogic.calculate_new_market_share at hok
  cases hd : pyDiv (dgetD impacts "financial" 0) gs.financial_resources with
  | error e =>
    rw [hd] at hok
    cases hok
  | ok fc =>
    rw [hd] at hok
    cases hok
    exact ⟨clamp_nonneg _, clamp_le _⟩

/-- A successful `apply_impacts` bounds the satisfaction map and the market
share, and leaves the level and experience untouched. -/
theorem apply_impacts_facts (s : GameLogic.Settings)
    (gs st1 : GameLogic.GameState) (impacts : Dict)
    (hb : ∀ p ∈ gs.stakeholder_satisfaction, 0 ≤ p.2 ∧ p.2 ≤ 100)
    (hok : GameLogic.apply_impacts s gs impacts = .ok st1) :
    (∀ p ∈ st1.stakeholder_satisfaction, 0 ≤ p.2 ∧ p.2 ≤ 100) ∧
    (0 ≤ st1.market_share ∧ st1.market_share ≤ 100) ∧
    st1.current_level = gs.current_level ∧
    st1.experience_points = gs.experience_points := by
  unfold GameLogic.apply_impacts at hok
  cases h1 : GameLogic.updateSatisfaction impacts s.STAKEHOLDER_TYPES
      gs.stakeholder_satisfaction with
  | error e =>
    simp only [h1] at hok
    cases hok
  | ok sat =>
    simp only [h1] at hok
    cases h2 : GameLogic.calculate_new_market_share
        { gs with
          financial_resources :=
            gs.financial_resources + dgetD impacts "financial" 0
          reputation := gs.reputation + dgetD impacts "reputation" 0
          stakeholder_satisfaction := sat } impacts with
    | error e =>
      simp only [h2] at hok
      cases hok
    | ok ms =>
      simp only [h2] at hok
      cases h3 : GameLogic.calculate_sustainability_rating
          { gs with
            financial_resources :=
              gs.financial_resources + dgetD impacts "financial" 0
            reputation := gs.reputation + dgetD impacts "reputation" 0
            stakeholder_satisfaction := sat
            market_share := ms } with
      | error e =>
        simp only [h3] at hok
        cases hok
      | ok sr =>
        simp only [h3, Except.ok.injEq] at hok
        subst hok
        refine ⟨?_, ?_, rfl, rfl⟩
        · exact updateSatisfaction_bounds impacts s.STAKEHOLDER_TYPES
            gs.stakeholder_satisfaction sat hb h1
        · exact calculate_new_market_share_bounds _ impacts ms h2

/-- The event-appending branch changes only the ongoing-events list. -/
theorem st2_projections (st1 : GameLogic.GameState)
    (evs : List GameLogic.Event) :
    (if evs.isEmpty then st1 else GameLogic.handle_events st1 evs).stakeholder_satisfaction
        = st1.stakeholder_satisfaction ∧
    (if evs.isEmpty then st1 else GameLogic.handle_events st1 evs).market_share
        = st1.market_share ∧
    (if evs.isEmpty then st1 else GameLogic.handle_events st1 evs).experience_points
        = st1.experience_points ∧
    (if evs.isEmpty then st1 else GameLogic.handle_events st1 evs).current_level
        = st1.current_level := by
  by_cases h : evs.isEmpty <;> simp [h, GameLogic.handle_events]

/-- The level-up check adds at most one level and changes nothing else. -/
theorem check_level_up_facts (gs : GameLogic.GameState) :
    ((GameLogic.check_level_up gs).current_level = gs.current_level ∨
     (GameLogic.check_level_up gs).current_level = gs.current_level + 1) ∧
    (GameLogic.check_level_up gs).experience_points = gs.experience_points ∧
    (GameLogic.check_level_up gs).stakeholder_satisfaction
      = gs.stakeholder_satisfaction ∧
    (GameLogic.check_level_up gs).market_share = gs.market_share := by
  unfold GameLogic.check_level_up
  split
  · exact ⟨Or.inr rfl, rfl, rfl, rfl⟩
  · exact ⟨Or.inl rfl, rfl, rfl, rfl⟩

/-- The memory update changes only the stakeholder-memories metadata. -/
theorem memories_projections (s : GameLogic.Settings) (now : ℤ)
    (gs : GameLogic.GameState) (d : GameLogic.Decision) (impacts : Dict) :
    (GameLogic.update_stakeholder_memories s now gs d impacts).stakeholder_satisfaction
        = gs.stakeholder_satisfaction ∧
    (GameLogic.update_stakeholder_memories s now gs d impacts).market_share
        = gs.market_share ∧
    (GameLogic.update_stakeholder_memories s now gs d impacts).experience_points
        = gs.experience_points ∧
    (GameLogic.update_stakeholder_memories s now gs d impacts).current_level
        = gs.current_level :=
  ⟨rfl, rfl, rfl, rfl⟩

/-- Truncation toward zero of a non-negative rational is non-negative. -/
theorem pyTrunc_nonneg (q : ℚ) (h : 0 ≤ q) : 0 ≤ pyTrunc q := by
  unfold pyTrunc
  exact Int.tdiv_nonneg (Rat.num_nonneg.mpr h) (by positivity)

/-- At a non-negative difficulty, a successful experience award is
non-negative. -/
theorem calculate_experience_points_nonneg (s : GameLogic.Settings)
    (d : GameLogic.Decision) (impacts : Dict) (diff : ℚ) (xp : ℤ)
    (hdiff : 0 ≤ diff)
    (hok : GameLogic.calculate_experience_points s d impacts diff = .ok xp) :
    0 ≤ xp := by
  unfold GameLogic.calculate_experience_points at hok
  cases hr : pyDiv ((impacts.filter (fun p => |p.2| > 0)).length : ℚ)
      ((s.STAKEHOLDER_TYPES.length : ℚ)) with
  | error e =>
    simp only [hr] at hok
    cases hok
  | ok ratio =>
    simp only [hr, Except.ok.injEq] at hok
    subst hok
    have hratio : 0 ≤ ratio := by
      unfold pyDiv at hr
      split at hr
      · cases hr
      · cases hr
        positivity
    have hpos : 0 ≤ ((impacts.filter (fun p => p.2 > 0)).map Prod.snd).sum := by
      refine List.sum_nonneg ?_
      intro x hx
      rcases List.mem_map.mp hx with ⟨p, hp, hpx⟩
      have := (List.mem_filter.mp hp).2
      simp only [decide_eq_true_eq] at this
      rw [← hpx]
      exact le_of_lt this
    refine pyTrunc_nonneg _ ?_
    have h1 : (0:ℚ) ≤ 100 * diff := by positivity
    have h2 : (0:ℚ) ≤ 100 * ratio := by positivity
    nlinarith

/-- Projections of the experience-points update. -/
theorem xp_update_projections (x : GameLogic.GameState) (xp : ℤ) :
    ({ x with experience_points := x.experience_points + xp } :
        GameLogic.GameState).stakeholder_satisfaction
      = x.stakeholder_satisfaction ∧
    ({ x with experience_points := x.experience_points + xp } :
        GameLogic.GameState).market_share = x.market_share ∧
    ({ x with experience_points := x.experience_points + xp } :
        GameLogic.GameState).experience_points = x.experience_points + xp ∧
    ({ x with experience_points := x.experience_points + xp } :
        GameLogic.GameState).current_level = x.current_level :=
  ⟨rfl, rfl, rfl, rfl⟩

/-- Projections through the level-up check followed by the memory update:
satisfaction, market share and experience are untouched, the level grows by
zero or one. -/
theorem mem_level_facts (s : GameLogic.Settings) (now : ℤ)
    (g : GameLogic.GameState) (d : GameLogic.Decision) (impacts : Dict) :
    (GameLogic.update_stakeholder_memories s now (GameLogic.check_level_up g)
        d impacts).stakeholder_satisfaction = g.stakeholder_satisfaction ∧
    (GameLogic.update_stakeholder_memories s now (GameLogic.check_level_up g)
        d impacts).market_share = g.market_share ∧
    (GameLogic.update_stakeholder_memories s now (GameLogic.check_level_up g)
        d impacts).experience_points = g.experience_points ∧
    ((GameLogic.update_stakeholder_memories s now (GameLogic.check_level_up g)
        d impacts).current_level = g.current_level ∨
     (GameLogic.update_stakeholder_memories s now (GameLogic.check_level_up g)
        d impacts).current_level = g.current_level + 1) := by
  by_cases hc : g.experience_points ≥ GameLogic.calculate_xp_needed g.current_level
  · simp [GameLogic.update_stakeholder_memories, GameLogic.check_level_up, hc]
  · simp [GameLogic.update_stakeholder_memories, GameLogic.check_level_up, hc]

/-- A successful `apply_impacts` leaves the level and experience
untouched (no satisfaction-bound hypothesis needed). -/
theorem apply_impacts_level_xp (s : GameLogic.Settings)
    (gs st1 : GameLogic.GameState) (impacts : Dict)
    (hok : GameLogic.apply_impacts s gs impacts = .ok st1) :
    st1.current_level = gs.current_level ∧
    st1.experience_points = gs.experience_points := by
  unfold GameLogic.apply_impacts at hok
  cases h1 : GameLogic.updateSatisfaction impacts s.STAKEHOLDER_TYPES
      gs.stakeholder_satisfaction with
  | error e =>
    simp only [h1] at hok
    cases hok
  | ok sat =>
    simp only [h1] at hok
    cases h2 : GameLogic.calculate_new_market_share
        { gs with
          financial_resources :=
            gs.financial_resources + dgetD impacts "financial" 0
          reputation := gs.reputation + dgetD impacts "reputation" 0
          stakeholder_satisfaction := sat } impacts with
    | error e =>
      simp only [h2] at hok
      cases hok
    | ok ms =>
      simp only [h2] at hok
      cases h3 : GameLogic.calculate_sustainability_rating
          { gs with
            financial_resources :=
              gs.financial_resources + dgetD impacts "financial" 0
            reputation := gs.reputation + dgetD impacts "reputation" 0
            stakeholder_satisfaction := sat
            market_share := ms } with
      | error e =>
        simp only [h3] at hok
        cases hok
      | ok sr =>
        simp only [h3, Except.ok.injEq] at hok
        subst hok
        exact ⟨rfl, rfl⟩

/-- C4: for every input state with all stakeholder satisfactions and market
share in `[0,100]`, and every decision `process_decision` accepts, every
stakeholder satisfaction of the output state lies in `[0,100]` and the
output market share lies in `[0,100]`. -/
theorem process_decision_bounds (s : GameLogic.Settings) (now : ℤ)
    (gs : GameLogic.GameState) (sc : GameLogic.Scenario)
    (d : GameLogic.Decision) (st : GameLogic.GameState) (imp : Dict)
    (hsat : ∀ p ∈ gs.stakeholder_satisfaction, 0 ≤ p.2 ∧ p.2 ≤ 100)
    (hms : 0 ≤ gs.market_share ∧ gs.market_share ≤ 100)
    (hok : GameLogic.process_decision s now gs sc d = .ok (st, imp)) :
    (∀ p ∈ st.stakeholder_satisfaction, 0 ≤ p.2 ∧ p.2 ≤ 100) ∧
    0 ≤ st.market_share ∧ st.market_share ≤ 100 := by
  unfold GameLogic.process_decision at hok
  cases h1 : GameLogic.calculate_decision_impacts d sc gs with
  | error e =>
    simp only [h1] at hok
    cases hok
  | ok impacts =>
    simp only [h1] at hok
    cases h2 : GameLogic.apply_impacts s gs impacts with
    | error e =>
      simp only [h2] at hok
      cases hok
    | ok st1 =>
      simp only [h2] at hok
      cases h3 : GameLogic.calculate_experience_points s d impacts
          sc.difficulty_level with
      | error e =>
        simp only [h3] at hok
        cases hok
      | ok xp =>
        simp only [h3, Except.ok.injEq, Prod.mk.injEq] at hok
        obtain ⟨hst, himp⟩ := hok
        subst hst
        have happ := apply_impacts_facts s gs st1 impacts hsat h2
        have e1 := mem_level_facts s now
          { (if (GameLogic.check_triggered_events s st1 impacts).isEmpty
             then st1
             else GameLogic.handle_events st1
               (GameLogic.check_triggered_events s st1 impacts)) with
            experience_points :=
              (if (GameLogic.check_triggered_events s st1 impacts).isEmpty
               then st1
               else GameLogic.handle_events st1
                 (GameLogic.check_triggered_events s st1 impacts)).experience_points
              + xp } d impacts
        have e2 := xp_update_projections
          (if (GameLogic.check_triggered_events s st1 impacts).isEmpty
           then st1
           else GameLogic.handle_events st1
             (GameLogic.check_triggered_events s st1 impacts)) xp
        have e3 := st2_projections st1
          (GameLogic.check_triggered_events s st1 impacts)
        refine ⟨?_, ?_, ?_⟩
        · rw [e1.1, e2.1, e3.1]
          exact happ.1
        · rw [e1.2.1, e2.2.1, e3.2.1]
          exact happ.2.1.1
        · rw [e1.2.1, e2.2.1, e3.2.1]
          exact happ.2.1.2

/-- C4, witness: processing a valid employees-only decision from the spec
start state succeeds and the resulting satisfactions and market share are
within bounds. -/
theorem process_decision_bounds_witness :
    (∀ p ∈ (okStateOf employeesRun specStartState).stakeholder_satisfaction,
      0 ≤ p.2 ∧ p.2 ≤ 100) ∧
    0 ≤ (okStateOf employeesRun specStartState).market_share ∧
    (okStateOf employeesRun specStartState).market_share ≤ 100 :=
  process_decision_bounds GameLogic.defaultSettings 0 specStartState
    specScenario employeesDecision (okStateOf employeesRun specStartState)
    (okImpactsOf employeesRun) (by decide) (by decide) (by rfl)

/-- C5: across every successful `process_decision` call at a non-negative
scenario difficulty, experience points never decrease and the level stays
or grows by exactly one, never more. -/
theorem process_decision_xp_level (s : GameLogic.Settings) (now : ℤ)
    (gs : GameLogic.GameState) (sc : GameLogic.Scenario)
    (d : GameLogic.Decision) (st : GameLogic.GameState) (imp : Dict)
    (hdiff : 0 ≤ sc.difficulty_level)
    (hok : GameLogic.process_decision s now gs sc d = .ok (st, imp)) :
    gs.experience_points ≤ st.experience_points ∧
    (st.current_level = gs.current_level ∨
     st.current_level = gs.current_level + 1) := by
  unfold GameLogic.process_decision at hok
  cases h1 : GameLogic.calculate_decision_impacts d sc gs with
  | error e =>
    simp only [h1] at hok
    cases hok
  | ok impacts =>
    simp only [h1] at hok
    cases h2 : GameLogic.apply_impacts s gs impacts with
    | error e =>
      simp only [h2] at hok
      cases hok
    | ok st1 =>
      simp only [h2] at hok
      cases h3 : GameLogic.calculate_experience_points s d impacts
          sc.difficulty_level with
      | error e =>
        simp only [h3] at hok
        cases hok
      | ok xp =>
        simp only [h3, Except.ok.injEq, Prod.mk.injEq] at hok
        obtain ⟨hst, himp⟩ := hok
        subst hst
        have hxp : 0 ≤ xp := calculate_experience_points_nonneg s d impacts
          sc.difficulty_level xp hdiff h3
        have hlx := apply_impacts_level_xp s gs st1 impacts h2
        have e1 := mem_level_facts s now
          { (if (GameLogic.check_triggered_events s st1 impacts).isEmpty
             then st1
             else GameLogic.handle_events st1
               (GameLogic.check_triggered_events s st1 impacts)) with
            experience_points :=
              (if (GameLogic.check_triggered_events s st1 impacts).isEmpty
               then st1
               else GameLogic.handle_events st1
                 (GameLogic.check_triggered_events s st1 impacts)).experience_points
              + xp } d impacts
        have e2 := xp_update_projections
          (if (GameLogic.check_triggered_events s st1 impacts).isEmpty
           then st1
           else GameLogic.handle_events st1
             (GameLogic.check_triggered_events s st1 impacts)) xp
        have e3 := st2_projections st1
          (GameLogic.check_triggered_events s st1 impacts)
        constructor
        · rw [e1.2.2.1, e2.2.2.1, e3.2.2.1, hlx.2]
          omega
        · rcases e1.2.2.2 with h | h
          · left
            rw [h, e2.2.2.2, e3.2.2.2, hlx.1]
          · right
            rw [h, e2.2.2.2, e3.2.2.2, hlx.1]

/-- C5, witness: the employees-only decision at difficulty 0.5 gains
experience and keeps the level. -/
theorem process_decision_xp_level_witness :
    0 ≤ specScenario.difficulty_level ∧
    (specStartState.experience_points ≤
      (okStateOf employeesRun specStartState).experience_points ∧
     ((okStateOf employeesRun specStartState).current_level =
        specStartState.current_level ∨
      (okStateOf employeesRun specStartState).current_level =
        specStartState.current_level + 1)) :=
  ⟨by decide,
   process_decision_xp_level GameLogic.defaultSettings 0 specStartState
     specScenario employeesDecision (okStateOf employeesRun specStartState)
     (okImpactsOf employeesRun) (by decide) (by rfl)⟩

/-- Folding rational additions through the nan-aware sum. -/
theorem pfAdd_foldl (l : List ℚ) (a : ℚ) :
    (l.map some).foldl PatternAnalyzer.pfAdd (some a) = some (a + l.sum) := by
  induction l generalizing a with
  | nil => simp
  | cons x xs ih =>
    simp only [List.map_cons, List.foldl_cons, PatternAnalyzer.pfAdd, ih,
      List.sum_cons]
    ring_nf

/-- `np.mean` of an all-finite non-empty array is the ordinary mean. -/
theorem npMean_map_some (l : List ℚ) (h : l ≠ []) :
    PatternAnalyzer.npMean (l.map some) = some (l.sum / (l.length : ℚ)) := by
  unfold PatternAnalyzer.npMean PatternAnalyzer.pfSum
  have hlen : l.length ≠ 0 := fun hc => h (List.length_eq_zero.mp hc)
  rw [pfAdd_foldl]
  simp [List.isEmpty_iff, h, PatternAnalyzer.pfDivQ, Nat.cast_eq_zero, hlen]

/-- When a decision affects at least one stakeholder, the source's second
bias component is the finite value of the claim-side formula. -/
theorem biasComp2_eq (d : PatternAnalyzer.Decision)
    (h : d.stakeholders_affected ≠ []) :
    PatternAnalyzer.biasComp2 d = some (claimComp2 d) := by
  unfold PatternAnalyzer.biasComp2 PatternAnalyzer.stakeholderMeanImpact
    claimComp2 listMeanQ
  have hm : d.stakeholders_affected.map (fun s => some (dgetD d.impacts s 0))
      = (d.stakeholders_affected.map (fun s => dgetD d.impacts s 0)).map some := by
    simp [List.map_map]
  rw [hm, npMean_map_some _ (by simpa using h)]
  simp [PatternAnalyzer.pfSub, PatternAnalyzer.pfDivQ]

/-- The two bias accumulators receive per-decision sums. -/
theorem bias_fold (ds : List PatternAnalyzer.Decision)
    (h : ∀ d ∈ ds, d.stakeholders_affected ≠ []) (a b : ℚ) :
    ds.foldl (fun acc d =>
      (PatternAnalyzer.pfAdd acc.1 (some (PatternAnalyzer.biasComp1 d)),
       PatternAnalyzer.pfAdd acc.2 (PatternAnalyzer.biasComp2 d)))
      (some a, some b)
      = (some (a + (ds.map PatternAnalyzer.biasComp1).sum),
         some (b + (ds.map claimComp2).sum)) := by
  induction ds generalizing a b with
  | nil => simp
  | cons d rest ih =>
    have hd : d.stakeholders_affected ≠ [] := h d (List.mem_cons_self d rest)
    rw [List.foldl_cons]
    have hstep :
        (PatternAnalyzer.pfAdd (some a) (some (PatternAnalyzer.biasComp1 d)),
         PatternAnalyzer.pfAdd (some b) (PatternAnalyzer.biasComp2 d))
        = ((some (a + PatternAnalyzer.biasComp1 d) : PatternAnalyzer.PF),
           (some (b + claimComp2 d) : PatternAnalyzer.PF)) := by
      rw [biasComp2_eq d hd]
      rfl
    rw [hstep, ih (fun x hx => h x (List.mem_cons_of_mem d hx))]
    simp only [List.map_cons, List.sum_cons, Prod.mk.injEq, Option.some.injEq]
    constructor <;> ring

/-- C8, amended: for every history in which each decision affects at least
one stakeholder, `_calculate_bias_score` returns the SUM over decisions of
the two signed components, divided by three (the mean over the three
accumulators `short_term`, `financial` and the never-written `stakeholder`),
not the claimed average-of-per-decision-averages. -/
theorem calculate_bias_score_sums (ds : List PatternAnalyzer.Decision)
    (h : ∀ d ∈ ds, d.stakeholders_affected ≠ []) :
    PatternAnalyzer.calculate_bias_score ds =
      some (((ds.map PatternAnalyzer.biasComp1).sum +
             (ds.map claimComp2).sum) / 3) := by
  unfold PatternAnalyzer.calculate_bias_score
  rw [bias_fold ds h 0 0]
  simp only [PatternAnalyzer.npMean, PatternAnalyzer.pfSum,
    PatternAnalyzer.pfAdd, PatternAnalyzer.pfDivQ, List.isEmpty_cons,
    List.foldl_cons, List.foldl_nil, List.length_cons, List.length_nil]
  norm_num

/-- C8, witness for the amended theorem at the five-decision history of the
counterexample. -/
theorem calculate_bias_score_sums_witness :
    (∀ d ∈ immediateHistory, d.stakeholders_affected ≠ []) ∧
    PatternAnalyzer.calculate_bias_score immediateHistory =
      some (((immediateHistory.map PatternAnalyzer.biasComp1).sum +
             (immediateHistory.map claimComp2).sum) / 3) :=
  ⟨by decide, calculate_bias_score_sums immediateHistory (by decide)⟩
